import Mathlib

/-!
Verification of the suspicion-scoring web service (src/app.py).

This file gives a shallow embedding of the core of `app.py`:
the process runner `safe_run`, the tool dispatcher `run_tools_on_file`
(together with the tool-selection defaulting performed by the `analyze`
route), and the suspicion scorer `compute_suspicion_score`, and proves
the specified properties about them.

Modelling conventions:
- Python strings are sequences of code points; they are modelled by
  `String` and manipulated through its `List Char` data, so that every
  operation is kernel-computable.  `str.lower` is modelled ASCII-wise
  (`Char.toLower`), which is exact on all inputs appearing in the
  literals and heuristics of the program.
- A Python result dict is modelled by `ToolResult`: the `success`
  variant mirrors the dict with keys cmd/returncode/stdout/stderr/elapsed
  built by `safe_run` on normal completion, the `failure` variant mirrors
  the dicts carrying an "error" key (`cmd = none` for the tool-not-configured dict of the dispatcher, which has no "cmd" key).  `dict.get` is
  modelled by the `stdoutOpt`/`stderrOpt` accessors: a key absent from
  the dict yields `none`.
- The `results` mapping is a map `String → Option ToolResult`;
  `results.get(name, \x7b\x7d)` yielding an empty (falsy) dict corresponds to
  `none`.  Every dict actually stored in the mapping is non-empty, hence
  truthy, which is what the Python `or` between two `.get` calls sees.
- The outcome of the one effectful call, `subprocess.run`, is abstracted
  by a `ProcOutcome` oracle passed to the runner and dispatcher: the call
  either completes, times out, fails to find the binary, or raises some
  other exception.  `safe_run` is a total function of that outcome - the
  embedding of the fact that every exception is caught and converted to
  a failure dict.
- elapsed wall-clock time is abstracted to an integer number of time
  units (its value never influences any property of interest).
-/

set_option maxHeartbeats 1000000

/-- A single quote character, as a string (used to spell out string
literals of the source that contain quotes). -/
def squot : String := String.singleton (Char.ofNat 39)

/-- ASCII lower-casing of a whole string, code point by code point:
the model of Python `str.lower()`. -/
def pyLower (s : String) : String := String.mk (s.data.map Char.toLower)

/-- First `n` code points of a string: the model of the Python slice
`s[:n]`. -/
def strTake (s : String) (n : Nat) : String := String.mk (s.data.take n)

/-- Does the character list `l` start with the list `p`? -/
def startsWithChars : List Char → List Char → Bool
  | _, [] => true
  | [], _ :: _ => false
  | c :: cs, p :: ps => c = p && startsWithChars cs ps

/-- Does the character list contain `pat` as a contiguous sublist? -/
def containsChars (pat : List Char) : List Char → Bool
  | [] => pat.isEmpty
  | c :: cs => startsWithChars (c :: cs) pat || containsChars pat cs

/-- Substring containment: the model of the Python `pat in s` test. -/
def strContains (s pat : String) : Bool := containsChars pat.data s.data

/-- Suffix test: the model of Python `s.endswith(pat)`. -/
def strEndsWith (s pat : String) : Bool :=
  startsWithChars s.data.reverse pat.data.reverse

/-- Python whitespace characters stripped by `str.strip()`:
space, tab, newline, carriage return, vertical tab, form feed. -/
def pySpaceChar (c : Char) : Bool :=
  c = Char.ofNat 32 || c = Char.ofNat 9 || c = Char.ofNat 10 ||
  c = Char.ofNat 13 || c = Char.ofNat 11 || c = Char.ofNat 12

/-- The model of Python `str.strip()`. -/
def pyStrip (s : String) : String :=
  String.mk (((s.data.dropWhile pySpaceChar).reverse.dropWhile pySpaceChar).reverse)

/-- Line-boundary characters of Python `str.splitlines()` (newline,
carriage return, vertical tab, form feed, the separator controls
FS/GS/RS, NEL, LINE SEPARATOR, PARAGRAPH SEPARATOR; `\r\n` counts as
one boundary). -/
def isLineBr (c : Char) : Bool :=
  c = Char.ofNat 10 || c = Char.ofNat 13 || c = Char.ofNat 11 ||
  c = Char.ofNat 12 || c = Char.ofNat 28 || c = Char.ofNat 29 ||
  c = Char.ofNat 30 || c = Char.ofNat 133 || c = Char.ofNat 8232 ||
  c = Char.ofNat 8233

/-- Worker for `splitlines`: `cur` holds the current line, reversed. -/
def splitlinesGo : List Char → List Char → List String
  | [], cur => if cur.isEmpty then [] else [String.mk cur.reverse]
  | c :: cs, cur =>
    if c = Char.ofNat 13 then
      String.mk cur.reverse ::
        (match cs with
         | [] => []
         | c2 :: cs2 =>
           if c2 = Char.ofNat 10 then splitlinesGo cs2 []
           else splitlinesGo (c2 :: cs2) [])
    else if isLineBr c then String.mk cur.reverse :: splitlinesGo cs []
    else splitlinesGo cs (c :: cur)

/-- The model of Python `str.splitlines()` (no trailing empty line). -/
def splitlines (s : String) : List String := splitlinesGo s.data []

/-- Characters `shlex.quote` treats as safe (the Python regex with
`re.ASCII`: word characters and `@ % + = : , . / -`). -/
def shlexSafeChar (c : Char) : Bool :=
  c.isAlphanum || c = Char.ofNat 95 || c = Char.ofNat 64 || c = Char.ofNat 37 ||
  c = Char.ofNat 43 || c = Char.ofNat 61 || c = Char.ofNat 58 || c = Char.ofNat 44 ||
  c = Char.ofNat 46 || c = Char.ofNat 47 || c = Char.ofNat 45

/-- The model of Python `shlex.quote`. -/
def shlexQuote (s : String) : String :=
  if s = "" then squot ++ squot
  else if s.data.all shlexSafeChar then s
  else
    squot ++ String.mk (s.data.flatMap
      (fun c => if c = Char.ofNat 39 then (squot ++ "\"" ++ squot ++ "\"" ++ squot).data else [c])) ++ squot

/-- The command string recorded in every result dict:
`" ".join(shlex.quote(x) for x in cmd_list)`. -/
def cmdString (cmd_list : List String) : String :=
  String.intercalate " " (cmd_list.map shlexQuote)

/-- The result of one tool invocation, mirroring the dicts built in app.py.
`success` is the dict `\x7bcmd, returncode, stdout, stderr, elapsed\x7d`
returned by `safe_run` on normal completion; `failure` is a dict with an
"error" key - `cmd = some c` for the three failure dicts of `safe_run`,
`cmd = none` for the `\x7b"error": "tool-not-configured"\x7d`
dict of the dispatcher, which carries no "cmd" key. -/
inductive ToolResult where
  | success (cmd : String) (returncode : Int) (stdout stderr : String) (elapsed : Int)
  | failure (cmd : Option String) (error : String)
deriving DecidableEq

/-- A results mapping: tool name to result dict, `none` for an absent
key (Python `results.get(name, \x7b\x7d)` returning the falsy empty dict). -/
abbrev Results : Type := String → Option ToolResult

/-- Python `d.get("stdout")`: only the success dict has a "stdout" key. -/
def stdoutOpt : Option ToolResult → Option String
  | some (ToolResult.success _ _ out _ _) => some out
  | _ => none

/-- Python `d.get("stderr")`: only the success dict has a "stderr" key. -/
def stderrOpt : Option ToolResult → Option String
  | some (ToolResult.success _ _ _ err _) => some err
  | _ => none

/-- Python `a or b` on two `.get(name, \x7b\x7d)` results: every dict stored
in a results mapping is non-empty, hence truthy, so the left operand
wins whenever the key is present. -/
def pyOr (a b : Option ToolResult) : Option ToolResult :=
  match a with
  | some x => some x
  | none => b

/-- Outcome of the one `subprocess.run` call inside `safe_run`,
abstracted: normal completion with exit code, raw output streams and
elapsed time, or one of the three caught exceptions
(`subprocess.TimeoutExpired`, `FileNotFoundError`, any other
`Exception e`, carrying `str(e)`). -/
inductive ProcOutcome where
  | completed (returncode : Int) (stdout stderr : String) (elapsed : Int)
  | timedOut
  | binaryNotFound
  | otherError (msg : String)

/-- The process runner `safe_run` of app.py: runs the command (no
shell) and converts every exception into a failure dict, so it is a
total function of the process outcome. -/
def safe_run (cmd_list : List String) (outcome : ProcOutcome) : ToolResult :=
  match outcome with
  | ProcOutcome.completed rc out err el =>
    ToolResult.success (cmdString cmd_list) rc (pyStrip out) (pyStrip err) el
  | ProcOutcome.timedOut => ToolResult.failure (some (cmdString cmd_list)) "timeout"
  | ProcOutcome.binaryNotFound => ToolResult.failure (some (cmdString cmd_list)) "binary-not-found"
  | ProcOutcome.otherError msg => ToolResult.failure (some (cmdString cmd_list)) msg

/-- The TOOL_COMMANDS registry of app.py: tool name to command
template.  A name not in the table maps to `none`. -/
def TOOL_COMMANDS : String → Option (List String)
  | "exiftool" => some ["exiftool", "{file}"]
  | "exiv2" => some ["exiv2", "{file}"]
  | "identify" => some ["identify", "-verbose", "{file}"]
  | "mat2" => some ["mat2", "{file}"]
  | "strings" => some ["strings", "-a", "{file}"]
  | "binwalk" => some ["binwalk", "{file}"]
  | "ffprobe" => some ["ffprobe", "-v", "error", "-show_format", "-show_streams", "-print_format", "json", "{file}"]
  | "mediainfo" => some ["mediainfo", "{file}"]
  | "readelf" => some ["readelf", "-h", "{file}"]
  | "objdump" => some ["objdump", "-f", "{file}"]
  | "rabin2" => some ["rabin2", "-I", "{file}"]
  | "pdfinfo" => some ["pdfinfo", "{file}"]
  | "pdfimages" => some ["pdfimages", "-list", "{file}"]
  | "docx2txt" => some ["docx2txt", "{file}", "-"]
  | "qpdf" => some ["qpdf", "--show-encryption", "{file}"]
  | "mutool" => some ["mutool", "info", "{file}"]
  | "tshark" => some ["tshark", "-r", "{file}"]
  | "file" => some ["file", "-k", "{file}"]
  | _ => none

/-- Worker for `replaceChars`, structurally recursive on a fuel
argument so that it reduces in the kernel; each step consumes at least
one input character when the pattern is non-empty, so `fuel =
input length` never runs out. -/
def replaceCharsF (pat rep : List Char) : Nat → List Char → List Char
  | 0, l => l
  | _ + 1, [] => []
  | fuel + 1, c :: cs =>
    match pat with
    | [] => c :: cs
    | p :: ps =>
      if startsWithChars (c :: cs) (p :: ps) then
        rep ++ replaceCharsF (p :: ps) rep fuel (cs.drop ps.length)
      else c :: replaceCharsF (p :: ps) rep fuel cs

/-- Replace every occurrence of the non-empty pattern `pat` by `rep`,
scanning left to right (the semantics of Python `str.replace` on the
occurrences that matter here). -/
def replaceChars (pat rep l : List Char) : List Char :=
  replaceCharsF pat rep l.length l

/-- `part.format(file=filepath)`: the command templates contain at most
the `\x7bfile\x7d` placeholder, which is substituted verbatim. -/
def formatFile (part filepath : String) : String :=
  String.mk (replaceChars ("{file}" : String).data filepath.data part.data)

/-- Python dict assignment `results[t] = v`. -/
def dictSet (r : Results) (k : String) (v : ToolResult) : Results :=
  fun s => if s = k then some v else r s

/-- Removal of a key from a results mapping (used to state that a
result behaves as if absent). -/
def dictRemove (r : Results) (k : String) : Results :=
  fun s => if s = k then none else r s

/-- The per-tool loop of `run_tools_on_file`: processes the requested
names left to right, accumulating the results mapping.  The second
component of the accumulator instruments the loop with the list of
command vectors actually handed to `safe_run` (the spawned processes),
so that no-spawn properties can be stated. -/
def run_tools_go (oracle : List String → ProcOutcome) (filepath : String) :
    List String → Results × List (List String) → Results × List (List String)
  | [], acc => acc
  | t :: rest, acc =>
    match TOOL_COMMANDS t with
    | none =>
      run_tools_go oracle filepath rest
        (dictSet acc.1 t (ToolResult.failure none "tool-not-configured"), acc.2)
    | some cmd_template =>
      let cmd := cmd_template.map (fun part => formatFile part filepath)
      run_tools_go oracle filepath rest
        (dictSet acc.1 t (safe_run cmd (oracle cmd)), acc.2 ++ [cmd])

/-- The tool dispatcher `run_tools_on_file` of app.py, instrumented
with the list of spawned commands. -/
def run_tools_on_file (oracle : List String → ProcOutcome) (filepath : String)
    (selected_tools : List String) : Results × List (List String) :=
  run_tools_go oracle filepath selected_tools (fun _ => none, [])

/-- The default tool selection substituted by the `analyze` route when
the caller picked no tools. -/
def DEFAULT_TOOLS : List String := ["file", "strings", "exiftool"]

/-- The tool-selection step of the `analyze` route followed by the
dispatcher: an empty selection is replaced by `DEFAULT_TOOLS` before
dispatching. -/
def analyze_run (oracle : List String → ProcOutcome) (filepath : String)
    (selected_tools : List String) : Results × List (List String) :=
  run_tools_on_file oracle filepath
    (if selected_tools.isEmpty then DEFAULT_TOOLS else selected_tools)

/-- The command vectors the dispatcher hands to `safe_run` for a given
selection: one per requested tool that is present in the registry. -/
def spawnedCmds (filepath : String) (sel : List String) : List (List String) :=
  sel.filterMap
    (fun t => (TOOL_COMMANDS t).map (fun tmpl => tmpl.map (fun part => formatFile part filepath)))

/-- Reason string of the MZ-header rule, exactly the quoted source
literal: Found (quote) MZ (quote) header inside file — possible embedded PE. -/
def mzReason : String :=
  "Found " ++ squot ++ "MZ" ++ squot ++ " header inside file — possible embedded PE"

/-- Reason string of the ELF rule of the strings heuristic, exactly the
quoted source literal: Found (quote) ELF (quote) inside file — possible
embedded binary. -/
def elfReason : String :=
  "Found " ++ squot ++ "ELF" ++ squot ++ " inside file — possible embedded binary"

/-- The file-type/extension-mismatch block of `compute_suspicion_score`
(rules 1 to 3): fires only when the `file` result has a truthy (non-empty)
stdout. -/
def fileContrib (results : Results) (filename : String) : Int × List String :=
  match stdoutOpt (results "file") with
  | some out =>
    if out = "" then (0, [])
    else
      let s := pyLower out
      let jpeg : Int × List String :=
        if strContains s "jpeg"
            && !(strEndsWith (pyLower filename) ".jpg" || strEndsWith (pyLower filename) ".jpeg")
        then (15, ["File type says JPEG but extension mismatch"]) else (0, [])
      let png : Int × List String :=
        if strContains s "png" && !(strEndsWith (pyLower filename) ".png")
        then (12, ["File type says PNG but extension mismatch"]) else (0, [])
      let pdf : Int × List String :=
        if strContains s "pdf" && !(strEndsWith (pyLower filename) ".pdf")
        then (14, ["File says PDF but extension mismatch"]) else (0, [])
      (jpeg.1 + png.1 + pdf.1, jpeg.2 ++ png.2 ++ pdf.2)
  | none => (0, [])

/-- The suspicious keywords of the strings heuristic (rule 5). -/
def KEYWORDS : List String := ["password", "secret", "key=", "private key", "-----begin"]

/-- The keyword loop of the strings heuristic: +8 and one reason per
keyword contained in the full lower-cased strings output. -/
def kwFold (s_out : String) : List String → Int × List String → Int × List String
  | [], acc => acc
  | kw :: kws, acc =>
    kwFold s_out kws
      (if strContains s_out kw then (acc.1 + 8, acc.2 ++ ["Found suspicious keyword: " ++ kw])
       else acc)

/-- Total contribution of the keyword loop, starting from zero. -/
def kwContribs (s_out : String) : Int × List String := kwFold s_out KEYWORDS (0, [])

/-- The strings-analysis block of `compute_suspicion_score` (rules 4
and 5): header signatures in the first 800 characters of the
lower-cased strings stdout, then the keyword scan of the whole of it. -/
def stringsContrib (results : Results) : Int × List String :=
  let s_out := pyLower ((stdoutOpt (results "strings")).getD "")
  if s_out = "" then (0, [])
  else
    let head := strTake s_out 800
    let mz : Int × List String := if strContains head "mz" then (25, [mzReason]) else (0, [])
    let elf : Int × List String := if strContains head "elf" then (22, [elfReason]) else (0, [])
    let kws := kwContribs s_out
    (mz.1 + elf.1 + kws.1, mz.2 ++ elf.2 ++ kws.2)

/-- The binwalk block of `compute_suspicion_score` (rule 6). -/
def binwalkContrib (results : Results) : Int × List String :=
  match stdoutOpt (results "binwalk") with
  | some raw =>
    if raw = "" then (0, [])
    else
      let out := pyStrip raw
      let n := (splitlines out).length
      if out = "" then (0, [])
      else if n > 2 then
        (min 25 (5 + (n : Int)),
         ["Binwalk found embedded content (" ++ toString n ++ " lines)"])
      else (0, [])
  | none => (0, [])

/-- The media-error block of `compute_suspicion_score` (rule 7):
`ff = results.get("ffprobe", ...) or results.get("mediainfo", ...)`,
then +10 if the chosen dict carries a truthy stderr. -/
def mediaContrib (results : Results) : Int × List String :=
  let ff := pyOr (results "ffprobe") (results "mediainfo")
  if (stderrOpt ff).getD "" = "" then (0, [])
  else (10, ["ffprobe/mediainfo reported errors parsing media"])

/-- The readelf block of `compute_suspicion_score` (rule 8): literal
"ELF" anywhere in the (not lower-cased) readelf stdout. -/
def readelfContrib (results : Results) : Int × List String :=
  let re_out := (stdoutOpt (results "readelf")).getD ""
  if re_out = "" then (0, [])
  else if strContains re_out "ELF" then (25, ["readelf reports ELF header inside file"])
  else (0, [])

/-- The verdict thresholds applied to the clamped score (source:
`"Likely Malicious" if score >= 50 else "Possibly Suspicious" if
score >= 25 else "Likely Clean"`). -/
def verdictOf (score : Int) : String :=
  if score ≥ 50 then "Likely Malicious"
  else if score ≥ 25 then "Possibly Suspicious"
  else "Likely Clean"

/-- The suspicion scorer `compute_suspicion_score` of app.py: the five
heuristic blocks in source order, score accumulated and then clamped by
`max(0, min(100, score))`, reasons concatenated in evaluation order,
verdict derived from the clamped score. -/
def compute_suspicion_score (results : Results) (filename : String) :
    Int × String × List String :=
  let c1 := fileContrib results filename
  let c2 := stringsContrib results
  let c3 := binwalkContrib results
  let c4 := mediaContrib results
  let c5 := readelfContrib results
  let raw := c1.1 + c2.1 + c3.1 + c4.1 + c5.1
  let reasons := c1.2 ++ c2.2 ++ c3.2 ++ c4.2 ++ c5.2
  let score := max 0 (min 100 raw)
  (score, verdictOf score, reasons)

/-! ### Helper lemmas about the dispatcher loop -/

/-- A key is present in the mapping built by the dispatcher loop
exactly when it was requested or already present in the accumulator. -/
theorem run_go_lookup_isSome (oracle : List String → ProcOutcome) (filepath t : String) :
    ∀ (sel : List String) (acc : Results × List (List String)),
      ((run_tools_go oracle filepath sel acc).1 t).isSome = true ↔
        (t ∈ sel ∨ (acc.1 t).isSome = true) := by
  intro sel
  induction sel with
  | nil => intro acc; simp [run_tools_go]
  | cons h tl ih =>
    intro acc
    cases hc : TOOL_COMMANDS h with
    | none =>
      simp only [run_tools_go, hc]
      rw [ih]
      by_cases ht : t = h
      · subst ht; simp [dictSet]
      · simp [dictSet, ht, List.mem_cons]
    | some tmpl =>
      simp only [run_tools_go, hc]
      rw [ih]
      by_cases ht : t = h
      · subst ht; simp [dictSet]
      · simp [dictSet, ht, List.mem_cons]

/-- For a name absent from the registry, the dispatcher loop stores the
tool-not-configured failure dict (regardless of how often the name was
requested), and touches nothing else. -/
theorem run_go_lookup_unconfigured (oracle : List String → ProcOutcome) (filepath t : String)
    (hn : TOOL_COMMANDS t = none) :
    ∀ (sel : List String) (acc : Results × List (List String)),
      (run_tools_go oracle filepath sel acc).1 t =
        if t ∈ sel then some (ToolResult.failure none "tool-not-configured") else acc.1 t := by
  intro sel
  induction sel with
  | nil => intro acc; simp [run_tools_go]
  | cons h tl ih =>
    intro acc
    cases hc : TOOL_COMMANDS h with
    | none =>
      simp only [run_tools_go, hc]
      rw [ih]
      by_cases ht : t = h
      · subst ht
        by_cases htl : t ∈ tl <;> simp [dictSet, htl, List.mem_cons]
      · simp [dictSet, ht, List.mem_cons]
    | some tmpl =>
      have ht : t ≠ h := by
        intro e; rw [e, hc] at hn; cases hn
      simp only [run_tools_go, hc]
      rw [ih]
      simp [dictSet, ht, List.mem_cons]

/-- The commands the dispatcher loop hands to `safe_run` are exactly
`spawnedCmds` of the requested selection. -/
theorem run_go_trace (oracle : List String → ProcOutcome) (filepath : String) :
    ∀ (sel : List String) (acc : Results × List (List String)),
      (run_tools_go oracle filepath sel acc).2 = acc.2 ++ spawnedCmds filepath sel := by
  intro sel
  induction sel with
  | nil => intro acc; simp [run_tools_go, spawnedCmds]
  | cons h tl ih =>
    intro acc
    cases hc : TOOL_COMMANDS h with
    | none =>
      simp only [run_tools_go, hc]
      rw [ih]
      simp [spawnedCmds, List.filterMap_cons, hc]
    | some tmpl =>
      simp only [run_tools_go, hc]
      rw [ih]
      simp [spawnedCmds, List.filterMap_cons, hc]

/-- Occurrences of an unconfigured name never spawn anything: filtering
them out of the selection leaves the spawned commands unchanged. -/
theorem spawnedCmds_filter_unconfigured (filepath t : String) (hn : TOOL_COMMANDS t = none) :
    ∀ sel : List String,
      spawnedCmds filepath (sel.filter (fun s => !(s == t))) = spawnedCmds filepath sel := by
  intro sel
  induction sel with
  | nil => rfl
  | cons h tl ih =>
    by_cases ht : h = t
    · subst ht
      simp only [spawnedCmds, List.filter_cons] at *
      simp [hn, ih]
    · simp only [spawnedCmds, List.filter_cons] at *
      simp [ht, List.filterMap_cons, ih]

/-! ### Helper lemmas about the scorer -/

/-- The scorer reads the results mapping only at the six keys "file",
"strings", "binwalk", "ffprobe", "mediainfo", "readelf". -/
theorem compute_eq_of_agree (r1 r2 : Results) (f : String)
    (h1 : r1 "file" = r2 "file") (h2 : r1 "strings" = r2 "strings")
    (h3 : r1 "binwalk" = r2 "binwalk") (h4 : r1 "ffprobe" = r2 "ffprobe")
    (h5 : r1 "mediainfo" = r2 "mediainfo") (h6 : r1 "readelf" = r2 "readelf") :
    compute_suspicion_score r1 f = compute_suspicion_score r2 f := by
  unfold compute_suspicion_score fileContrib stringsContrib binwalkContrib
    mediaContrib readelfContrib
  rw [h1, h2, h3, h4, h5, h6]

/-- The file-type block contributes a non-negative score, zero exactly
when it appends no reason. -/
theorem fileContrib_sign (r : Results) (f : String) :
    0 ≤ (fileContrib r f).1 ∧ ((fileContrib r f).1 = 0 ↔ (fileContrib r f).2 = []) := by
  unfold fileContrib
  cases stdoutOpt (r "file") with
  | none => simp
  | some out =>
    by_cases h : out = ""
    · simp [h]
    · simp only [h, if_false, reduceIte]
      split_ifs <;> decide

/-- The keyword loop preserves non-negativity and the score-zero /
no-reasons correspondence. -/
theorem kwFold_sign (s : String) :
    ∀ (kws : List String) (acc : Int × List String),
      0 ≤ acc.1 → (acc.1 = 0 ↔ acc.2 = []) →
      0 ≤ (kwFold s kws acc).1 ∧ ((kwFold s kws acc).1 = 0 ↔ (kwFold s kws acc).2 = []) := by
  intro kws
  induction kws with
  | nil => intro acc h1 h2; exact ⟨h1, h2⟩
  | cons kw kws ih =>
    intro acc h1 h2
    simp only [kwFold]
    by_cases hc : strContains s kw
    · refine ih _ ?_ ?_
      · simp only [hc, if_true, reduceIte]; omega
      · simp only [hc, if_true, reduceIte]
        constructor
        · intro h; exact absurd h (by omega)
        · intro h; exact absurd h (by simp)
    · simp only [hc, if_false, reduceIte]
      exact ih acc h1 h2

/-- The strings block contributes a non-negative score, zero exactly
when it appends no reason. -/
theorem stringsContrib_sign (r : Results) :
    0 ≤ (stringsContrib r).1 ∧ ((stringsContrib r).1 = 0 ↔ (stringsContrib r).2 = []) := by
  unfold stringsContrib
  by_cases h : pyLower ((stdoutOpt (r "strings")).getD "") = ""
  · simp [h]
  · obtain ⟨hk1, hk2⟩ :=
      kwFold_sign (pyLower ((stdoutOpt (r "strings")).getD "")) KEYWORDS (0, [])
        (le_refl 0) (by simp)
    simp only [h, if_false, reduceIte, kwContribs]
    split_ifs with hmz helf helf2
    · refine ⟨by omega, ?_, ?_⟩
      · intro hz; exact absurd hz (by omega)
      · intro hz; exact absurd hz (by simp)
    · refine ⟨by omega, ?_, ?_⟩
      · intro hz; exact absurd hz (by omega)
      · intro hz; exact absurd hz (by simp)
    · refine ⟨by omega, ?_, ?_⟩
      · intro hz; exact absurd hz (by omega)
      · intro hz; exact absurd hz (by simp)
    · exact ⟨by omega, by simpa using hk2⟩

/-- The binwalk block contributes a non-negative score, zero exactly
when it appends no reason. -/
theorem binwalkContrib_sign (r : Results) :
    0 ≤ (binwalkContrib r).1 ∧ ((binwalkContrib r).1 = 0 ↔ (binwalkContrib r).2 = []) := by
  unfold binwalkContrib
  cases stdoutOpt (r "binwalk") with
  | none => simp
  | some raw =>
    by_cases h : raw = ""
    · simp [h]
    · simp only [h, if_false, reduceIte]
      by_cases h2 : pyStrip raw = ""
      · simp [h2]
      · simp only [h2, if_false, reduceIte]
        by_cases h3 : (splitlines (pyStrip raw)).length > 2
        · have hpos : (0:Int) < min 25 (5 + ((splitlines (pyStrip raw)).length : Int)) := by
            rcases min_cases (25 : Int) (5 + ((splitlines (pyStrip raw)).length : Int)) with
              ⟨he, _⟩ | ⟨he, _⟩ <;> rw [he] <;> omega
          simp only [h3, if_true, reduceIte]
          constructor
          · omega
          · constructor
            · intro hz; exact absurd hz (by omega)
            · intro hz; exact absurd hz (by simp)
        · simp [h3]

/-- The media-error block contributes a non-negative score, zero
exactly when it appends no reason. -/
theorem mediaContrib_sign (r : Results) :
    0 ≤ (mediaContrib r).1 ∧ ((mediaContrib r).1 = 0 ↔ (mediaContrib r).2 = []) := by
  by_cases h : (stderrOpt (pyOr (r "ffprobe") (r "mediainfo"))).getD "" = ""
  · simp [mediaContrib, h]
  · simp [mediaContrib, h]

/-- The readelf block contributes a non-negative score, zero exactly
when it appends no reason. -/
theorem readelfContrib_sign (r : Results) :
    0 ≤ (readelfContrib r).1 ∧ ((readelfContrib r).1 = 0 ↔ (readelfContrib r).2 = []) := by
  by_cases h1 : (stdoutOpt (r "readelf")).getD "" = ""
  · simp [readelfContrib, h1]
  · by_cases h2 : strContains ((stdoutOpt (r "readelf")).getD "") "ELF"
    · simp [readelfContrib, h1, h2]
    · simp [readelfContrib, h1, h2]

/-! ### Concrete fixtures used by witnesses -/

/-- An oracle under which every spawned process fails to start. -/
def oracle0 : List String → ProcOutcome := fun _ => ProcOutcome.binaryNotFound

/-- A results mapping whose raw (pre-clamp) score is 128: all three
file-type mismatches plus both header signatures plus all five
keywords. -/
def resBig : Results := fun k =>
  if k = "file" then some (ToolResult.success "file -k evidence" 0 "JPEG PNG PDF" "" 0)
  else if k = "strings" then
    some (ToolResult.success "strings -a evidence" 0
      "mz elf password secret key= private key -----begin" "" 0)
  else none

/-- A `file` result reporting PNG image data. -/
def resPng : Results := fun k =>
  if k = "file" then some (ToolResult.success "file -k photo" 0 "PNG image data, 800x600" "" 0)
  else none

/-- A `strings` result whose stdout contains the MZ marker phrase. -/
def resStrMZ : Results := fun k =>
  if k = "strings" then
    some (ToolResult.success "strings -a sample" 0 "This program cannot be run in MZ mode" "" 0)
  else none

/-- An `ffprobe` result with empty stderr next to a `mediainfo` result
with non-empty stderr. -/
def resMediaShadow : Results := fun k =>
  if k = "ffprobe" then some (ToolResult.success "ffprobe sample" 0 "" "" 0)
  else if k = "mediainfo" then some (ToolResult.success "mediainfo sample" 1 "" "boom" 0)
  else none

/-- A mapping whose only entry is for a tool the scorer ignores. -/
def resOther : Results := fun k =>
  if k = "exiftool" then some (ToolResult.failure (some "exiftool sample.bin") "timeout")
  else none

/-! ### The claims -/

/-- Claim C1: for every results mapping and filename the score returned
by `compute_suspicion_score` is an integer in [0,100]; moreover at
`resBig` the raw accumulated score exceeds 100 (it is 128) and the
returned score is exactly 100, so the bound holds by clamping and not
vacuously. -/
theorem claim_C1 (r : Results) (filename : String) :
    (0 ≤ (compute_suspicion_score r filename).1
      ∧ (compute_suspicion_score r filename).1 ≤ 100)
    ∧ 100 < (fileContrib resBig "evidence").1 + (stringsContrib resBig).1
        + (binwalkContrib resBig).1 + (mediaContrib resBig).1 + (readelfContrib resBig).1
    ∧ (compute_suspicion_score resBig "evidence").1 = 100 := by
  refine ⟨⟨?_, ?_⟩, by decide, by decide⟩
  · exact le_max_left 0 _
  · have hsc : (compute_suspicion_score r filename).1 =
        max 0 (min 100 ((fileContrib r filename).1 + (stringsContrib r).1
          + (binwalkContrib r).1 + (mediaContrib r).1 + (readelfContrib r).1)) := rfl
    rw [hsc]
    exact max_le (by norm_num) (min_le_left _ _)

/-- Claim C2: the verdict component of the scorer output is exactly
`verdictOf` of the clamped score, and `verdictOf` implements the fixed
thresholds: at least 50 gives "Likely Malicious", 25 to 49 gives
"Possibly Suspicious", below 25 gives "Likely Clean"; in particular
verdictOf 24 = "Likely Clean", verdictOf 25 = verdictOf 49 =
"Possibly Suspicious", verdictOf 50 = "Likely Malicious". -/
theorem claim_C2 (r : Results) (filename : String) (s : Int) :
    (compute_suspicion_score r filename).2.1 = verdictOf (compute_suspicion_score r filename).1
    ∧ (50 ≤ s → verdictOf s = "Likely Malicious")
    ∧ (25 ≤ s → s < 50 → verdictOf s = "Possibly Suspicious")
    ∧ (s < 25 → verdictOf s = "Likely Clean")
    ∧ verdictOf 24 = "Likely Clean"
    ∧ verdictOf 25 = "Possibly Suspicious"
    ∧ verdictOf 49 = "Possibly Suspicious"
    ∧ verdictOf 50 = "Likely Malicious" := by
  refine ⟨rfl, ?_, ?_, ?_, by decide, by decide, by decide, by decide⟩
  · intro h; unfold verdictOf; rw [if_pos (by omega)]
  · intro h1 h2; unfold verdictOf; rw [if_neg (by omega), if_pos (by omega)]
  · intro h; unfold verdictOf; rw [if_neg (by omega), if_neg (by omega)]

/-- Witness for C2 at the concrete score 60. -/
theorem claim_C2_witness : verdictOf 60 = "Likely Malicious" :=
  (claim_C2 (fun _ => none) "a" 60).2.1 (by norm_num)

/-- Claim C3: with an empty tool selection, the analyze-route
defaulting followed by the dispatcher yields a mapping whose keys are
exactly the default selection file, strings, exiftool. -/
theorem claim_C3 (oracle : List String → ProcOutcome) (filepath t : String) :
    ((analyze_run oracle filepath []).1 t).isSome = true ↔
      (t = "file" ∨ t = "strings" ∨ t = "exiftool") := by
  have he : analyze_run oracle filepath [] = run_tools_on_file oracle filepath DEFAULT_TOOLS := rfl
  rw [he]
  unfold run_tools_on_file
  rw [run_go_lookup_isSome]
  simp [DEFAULT_TOOLS]

/-- Witness for C3: the default-selection mapping has an exiftool entry. -/
theorem claim_C3_witness :
    ((analyze_run oracle0 "/tmp/sample" []).1 "exiftool").isSome = true :=
  (claim_C3 oracle0 "/tmp/sample" "exiftool").mpr (Or.inr (Or.inr rfl))

/-- Claim C4: whatever the process outcomes, the dispatcher returns a
mapping with exactly one entry per requested tool (so no tool error
aborts the analysis), and `safe_run` converts each abnormal outcome
into the corresponding failure dict: timeout, binary-not-found, and any
other exception message - never an escaping exception. -/
theorem claim_C4 (oracle : List String → ProcOutcome) (filepath : String)
    (sel : List String) (t : String) (cmd : List String) (msg out err : String)
    (rc el : Int) :
    (((run_tools_on_file oracle filepath sel).1 t).isSome = true ↔ t ∈ sel)
    ∧ safe_run cmd ProcOutcome.timedOut = ToolResult.failure (some (cmdString cmd)) "timeout"
    ∧ safe_run cmd ProcOutcome.binaryNotFound
        = ToolResult.failure (some (cmdString cmd)) "binary-not-found"
    ∧ safe_run cmd (ProcOutcome.otherError msg) = ToolResult.failure (some (cmdString cmd)) msg
    ∧ safe_run cmd (ProcOutcome.completed rc out err el)
        = ToolResult.success (cmdString cmd) rc (pyStrip out) (pyStrip err) el := by
  refine ⟨?_, rfl, rfl, rfl, rfl⟩
  unfold run_tools_on_file
  rw [run_go_lookup_isSome]
  simp

/-- Witness for C4: under an oracle where every binary is missing, the
mapping still holds an entry for each requested tool. -/
theorem claim_C4_witness :
    ((run_tools_on_file oracle0 "/tmp/sample" ["file", "strings"]).1 "strings").isSome = true :=
  (claim_C4 oracle0 "/tmp/sample" ["file", "strings"] "strings" [] "" "" "" 0 0).1.mpr (by simp)

/-- Claim C5: for a requested name absent from TOOL_COMMANDS the
dispatcher stores the Failure dict tagged tool-not-configured, spawns
no process for it (filtering the name out of the selection leaves the
spawned commands unchanged), and the scorer treats such a result
exactly as an absent key: since every tool name the scorer consults is
configured, an unconfigured name is none of them. -/
theorem claim_C5 (oracle : List String → ProcOutcome) (filepath : String)
    (sel : List String) (t : String) (r : Results) (filename : String)
    (hn : TOOL_COMMANDS t = none) :
    (t ∈ sel → (run_tools_on_file oracle filepath sel).1 t =
        some (ToolResult.failure none "tool-not-configured"))
    ∧ (run_tools_on_file oracle filepath sel).2 =
        (run_tools_on_file oracle filepath (sel.filter (fun s => !(s == t)))).2
    ∧ compute_suspicion_score (dictSet r t (ToolResult.failure none "tool-not-configured")) filename
        = compute_suspicion_score (dictRemove r t) filename := by
  have hf : t ≠ "file" := by intro e; rw [e] at hn; exact absurd hn (by decide)
  have hs : t ≠ "strings" := by intro e; rw [e] at hn; exact absurd hn (by decide)
  have hb : t ≠ "binwalk" := by intro e; rw [e] at hn; exact absurd hn (by decide)
  have hff : t ≠ "ffprobe" := by intro e; rw [e] at hn; exact absurd hn (by decide)
  have hm : t ≠ "mediainfo" := by intro e; rw [e] at hn; exact absurd hn (by decide)
  have hr : t ≠ "readelf" := by intro e; rw [e] at hn; exact absurd hn (by decide)
  refine ⟨?_, ?_, ?_⟩
  · intro hmem
    unfold run_tools_on_file
    rw [run_go_lookup_unconfigured oracle filepath t hn, if_pos hmem]
  · unfold run_tools_on_file
    rw [run_go_trace, run_go_trace, spawnedCmds_filter_unconfigured filepath t hn]
  · apply compute_eq_of_agree <;>
      simp [dictSet, dictRemove, Ne.symm hf, Ne.symm hs, Ne.symm hb,
        Ne.symm hff, Ne.symm hm, Ne.symm hr]

/-- Witness for C5 at the name "nonexistent-tool" from the spec test. -/
theorem claim_C5_witness :
    (run_tools_on_file oracle0 "/tmp/sample" ["nonexistent-tool"]).1 "nonexistent-tool"
      = some (ToolResult.failure none "tool-not-configured") :=
  (claim_C5 oracle0 "/tmp/sample" ["nonexistent-tool"] "nonexistent-tool"
    (fun _ => none) "a" (by decide)).1 (by simp)

/-- Claim C6: the header checks of the strings block look only at the
first 800 characters of the lower-cased strings stdout: "mz" there
contributes exactly +25 together with the MZ-header reason, "elf" there
contributes exactly +22 with the ELF reason, on top of the keyword
contributions computed from the whole lower-cased stdout. -/
theorem claim_C6 (r : Results) (out : String)
    (h : stdoutOpt (r "strings") = some out) :
    stringsContrib r =
      ((if strContains (strTake (pyLower out) 800) "mz" then (25:Int) else 0)
        + (if strContains (strTake (pyLower out) 800) "elf" then (22:Int) else 0)
        + (kwContribs (pyLower out)).1,
       (if strContains (strTake (pyLower out) 800) "mz" then [mzReason] else [])
        ++ (if strContains (strTake (pyLower out) 800) "elf" then [elfReason] else [])
        ++ (kwContribs (pyLower out)).2) := by
  unfold stringsContrib
  rw [h]
  simp only [Option.getD_some]
  by_cases he : pyLower out = ""
  · rw [if_pos he, he]
    decide
  · rw [if_neg he]
    by_cases hmz : strContains (strTake (pyLower out) 800) "mz" <;>
      by_cases helf : strContains (strTake (pyLower out) 800) "elf" <;>
        simp [hmz, helf, kwContribs]

/-- Witness for C6: a strings stdout whose first 800 characters contain
"This program cannot be run in MZ mode" gains exactly +25, with the
MZ-header reason. -/
theorem claim_C6_witness :
    stringsContrib resStrMZ = (25, [mzReason]) := by
  rw [claim_C6 resStrMZ "This program cannot be run in MZ mode" rfl]
  decide

/-- Claim C7: when the file tool succeeded with non-empty stdout, the
file block contributes exactly +15 for "jpeg" without a .jpg/.jpeg
extension, +12 for "png" without .png, +14 for "pdf" without .pdf,
with the corresponding reasons. -/
theorem claim_C7 (r : Results) (filename out : String)
    (h : stdoutOpt (r "file") = some out) (hne : ¬ out = "") :
    fileContrib r filename =
      ((if strContains (pyLower out) "jpeg"
            && !(strEndsWith (pyLower filename) ".jpg" || strEndsWith (pyLower filename) ".jpeg")
         then (15:Int) else 0)
        + (if strContains (pyLower out) "png" && !(strEndsWith (pyLower filename) ".png")
           then (12:Int) else 0)
        + (if strContains (pyLower out) "pdf" && !(strEndsWith (pyLower filename) ".pdf")
           then (14:Int) else 0),
       (if strContains (pyLower out) "jpeg"
            && !(strEndsWith (pyLower filename) ".jpg" || strEndsWith (pyLower filename) ".jpeg")
        then ["File type says JPEG but extension mismatch"] else [])
        ++ (if strContains (pyLower out) "png" && !(strEndsWith (pyLower filename) ".png")
            then ["File type says PNG but extension mismatch"] else [])
        ++ (if strContains (pyLower out) "pdf" && !(strEndsWith (pyLower filename) ".pdf")
            then ["File says PDF but extension mismatch"] else [])) := by
  unfold fileContrib
  rw [h]
  dsimp only
  rw [if_neg hne]
  split_ifs <;> simp_all

/-- Witness for C7: file stdout "PNG image data, 800x600" with filename
photo.jpg contributes exactly +12 with the PNG reason, and with
filename photo.png contributes nothing. -/
theorem claim_C7_witness :
    fileContrib resPng "photo.jpg" = (12, ["File type says PNG but extension mismatch"])
    ∧ fileContrib resPng "photo.png" = (0, []) := by
  constructor
  · rw [claim_C7 resPng "photo.jpg" "PNG image data, 800x600" rfl (by decide)]
    decide
  · rw [claim_C7 resPng "photo.png" "PNG image data, 800x600" rfl (by decide)]
    decide

/-- Claim C8: the media block adds +10 exactly when the consulted
result carries non-empty stderr, where the consulted result is the
ffprobe entry whenever one is present in the mapping and the mediainfo
entry only when the ffprobe key is absent; a present ffprobe result
with empty stderr therefore silences a mediainfo result entirely. -/
theorem claim_C8 (r : Results) (x : ToolResult) :
    (r "ffprobe" = some x →
      mediaContrib r =
        (if (stderrOpt (some x)).getD "" = "" then ((0:Int), ([]:List String))
         else (10, ["ffprobe/mediainfo reported errors parsing media"])))
    ∧ (r "ffprobe" = none →
      mediaContrib r =
        (if (stderrOpt (r "mediainfo")).getD "" = "" then ((0:Int), ([]:List String))
         else (10, ["ffprobe/mediainfo reported errors parsing media"]))) := by
  constructor
  · intro h
    unfold mediaContrib
    rw [h]
    by_cases hc : (stderrOpt (some x)).getD "" = "" <;> simp [pyOr, hc]
  · intro h
    unfold mediaContrib
    rw [h]
    by_cases hc : (stderrOpt (r "mediainfo")).getD "" = "" <;> simp [pyOr, hc]

/-- Witness for C8: an ffprobe result with empty stderr next to a
mediainfo result with stderr "boom" contributes nothing. -/
theorem claim_C8_witness :
    mediaContrib resMediaShadow = (0, []) := by
  rw [(claim_C8 resMediaShadow (ToolResult.success "ffprobe sample" 0 "" "" 0)).1 rfl]
  decide

/-- Claim C9: the scorer returns score 0 exactly when its reasons list
is empty, and the lower clamp bound is never the active one: the
returned score is exactly `min 100` of the raw accumulated sum, which
is non-negative because every firing rule adds a strictly positive
amount (and appends its reason). -/
theorem claim_C9 (r : Results) (filename : String) :
    ((compute_suspicion_score r filename).1 = 0 ↔
      (compute_suspicion_score r filename).2.2 = [])
    ∧ (compute_suspicion_score r filename).1 =
        min 100 ((fileContrib r filename).1 + (stringsContrib r).1 + (binwalkContrib r).1
          + (mediaContrib r).1 + (readelfContrib r).1) := by
  obtain ⟨a1, a2⟩ := fileContrib_sign r filename
  obtain ⟨b1, b2⟩ := stringsContrib_sign r
  obtain ⟨c1, c2⟩ := binwalkContrib_sign r
  obtain ⟨d1, d2⟩ := mediaContrib_sign r
  obtain ⟨e1, e2⟩ := readelfContrib_sign r
  have hsc : (compute_suspicion_score r filename).1 =
      max 0 (min 100 ((fileContrib r filename).1 + (stringsContrib r).1
        + (binwalkContrib r).1 + (mediaContrib r).1 + (readelfContrib r).1)) := rfl
  have hre : (compute_suspicion_score r filename).2.2 =
      (fileContrib r filename).2 ++ (stringsContrib r).2 ++ (binwalkContrib r).2
        ++ (mediaContrib r).2 ++ (readelfContrib r).2 := rfl
  refine ⟨?_, ?_⟩
  · rw [hsc, hre]
    constructor
    · intro h
      have hz : (fileContrib r filename).1 = 0 ∧ (stringsContrib r).1 = 0
          ∧ (binwalkContrib r).1 = 0 ∧ (mediaContrib r).1 = 0
          ∧ (readelfContrib r).1 = 0 := by omega
      rw [a2.mp hz.1, b2.mp hz.2.1, c2.mp hz.2.2.1, d2.mp hz.2.2.2.1, e2.mp hz.2.2.2.2]
      simp
    · intro h
      have h5 : (fileContrib r filename).2 = [] ∧ (stringsContrib r).2 = []
          ∧ (binwalkContrib r).2 = [] ∧ (mediaContrib r).2 = []
          ∧ (readelfContrib r).2 = [] := by
        simpa [List.append_eq_nil] using h
      have z1 := a2.mpr h5.1
      have z2 := b2.mpr h5.2.1
      have z3 := c2.mpr h5.2.2.1
      have z4 := d2.mpr h5.2.2.2.1
      have z5 := e2.mpr h5.2.2.2.2
      omega
  · rw [hsc]
    omega

/-- Witness for C9: the empty mapping gets score 0 and no reasons. -/
theorem claim_C9_witness :
    (compute_suspicion_score (fun _ => none) "sample.bin").2.2 = [] :=
  ((claim_C9 (fun _ => none) "sample.bin").1).mp (by decide)

/-- Claim C10: the whole scorer output depends only on the filename
and on the results entries for the six keys file, strings, binwalk,
ffprobe, mediainfo, readelf - two mappings agreeing there get the
identical (score, verdict, reasons). -/
theorem claim_C10 (r1 r2 : Results) (filename : String)
    (h : ∀ k ∈ (["file", "strings", "binwalk", "ffprobe", "mediainfo", "readelf"] : List String),
      r1 k = r2 k) :
    compute_suspicion_score r1 filename = compute_suspicion_score r2 filename :=
  compute_eq_of_agree r1 r2 filename
    (h "file" (by simp)) (h "strings" (by simp)) (h "binwalk" (by simp))
    (h "ffprobe" (by simp)) (h "mediainfo" (by simp)) (h "readelf" (by simp))

/-- Witness for C10: the empty mapping and a mapping holding only an
exiftool failure agree on the six keys and score identically. -/
theorem claim_C10_witness :
    compute_suspicion_score (fun _ => none) "sample.bin"
      = compute_suspicion_score resOther "sample.bin" :=
  claim_C10 (fun _ => none) resOther "sample.bin" (by decide)
